import Mathlib

/-!
Verification of the Salesforce Data Cloud utility client
(`salesforce_datacloud_utils.py`, `exceptions.py`).

The Python code is shallowly embedded: HTTP traffic is modelled by
response oracles passed as arguments, the mutable session context
becomes explicit state passing, raised exceptions become `Except` /
`Option` error values, and a JSON record is abstracted by its
serialized UTF-8 byte size (a function `size : α → Nat` standing for
`len(json.dumps(item).encode("utf-8"))`).
-/

namespace SFDC

/-- Mirror of `exceptions.SalesforceDataCloudError`: an operation-tagged
error carrying the operation name, the request URL, the HTTP status code
and the raw response body. -/
structure SalesforceDataCloudError where
  operation : String
  url : String
  status : Nat
  content : String
deriving Repr, DecidableEq

/-- An HTTP response as the client observes it: status code and body text. -/
structure HttpResponse where
  statusCode : Nat
  text : String
deriving Repr, DecidableEq

/-- Data Cloud streaming-ingest payload limit (source constant
`STREAMING_API_MAX_PAYLOAD_SIZE = 200 * 1000`). -/
def STREAMING_API_MAX_PAYLOAD_SIZE : Nat := 200 * 1000

/-- Data Cloud bulk-ingest payload limit (source constant
`BULK_API_MAX_PAYLOAD_SIZE = 150 * 1000 * 1000`). -/
def BULK_API_MAX_PAYLOAD_SIZE : Nat := 150 * 1000 * 1000

/-- Loop body of `SalesforceDataCloud._split_json_list` (source lines
158-179).  `current_list` and `current_size` are the accumulator
variables of the Python loop; on exit the pending `current_list` is
appended only when non-empty (`if current_list:`).  Note that when
`current_size + item_size > max_size` fires, the Python code appends
`current_list` to the result even when it is empty (which happens when
the very first record is already oversized). -/
def split_json_list.go (size : α → Nat) (max_size : Nat) :
    List α → List α → Nat → List (List α)
  | [], current_list, _ =>
      if current_list.isEmpty then [] else [current_list]
  | item :: rest, current_list, current_size =>
      if current_size + size item > max_size then
        current_list :: split_json_list.go size max_size rest [item] (size item)
      else
        split_json_list.go size max_size rest (current_list ++ [item])
          (current_size + size item)

/-- Mirror of `SalesforceDataCloud._split_json_list(input_json_list,
max_size)`: greedy single-pass grouping of records by accumulated
serialized size. -/
def split_json_list (size : α → Nat) (input_json_list : List α) (max_size : Nat) :
    List (List α) :=
  split_json_list.go size max_size input_json_list [] 0

/-- Total serialized size of a group of records, as accumulated by
`_split_json_list` (the sum of the individual records' serialized
sizes). -/
def serializedSize (size : α → Nat) (l : List α) : Nat :=
  (l.map size).sum

theorem serializedSize_nil (size : α → Nat) : serializedSize size [] = 0 := rfl

theorem serializedSize_singleton (size : α → Nat) (a : α) :
    serializedSize size [a] = size a := by
  simp [serializedSize]

theorem serializedSize_append (size : α → Nat) (l₁ l₂ : List α) :
    serializedSize size (l₁ ++ l₂) = serializedSize size l₁ + serializedSize size l₂ := by
  simp [serializedSize]

theorem split_json_list.go_join (size : α → Nat) (max_size : Nat) :
    ∀ (l current_list : List α) (current_size : Nat),
      (split_json_list.go size max_size l current_list current_size).flatten =
        current_list ++ l := by
  intro l
  induction l with
  | nil =>
      intro current_list current_size
      by_cases h : current_list.isEmpty
      · simp [split_json_list.go, h, List.isEmpty_iff.mp h]
      · simp [split_json_list.go, h]
  | cons item rest ih =>
      intro current_list current_size
      by_cases h : current_size + size item > max_size
      · simp [split_json_list.go, h, ih]
      · simp [split_json_list.go, h, ih]

/-- C2: the concatenation of the groups returned by `_split_json_list`
equals the input sequence in order — the groups partition the input
without reordering, dropping, or duplicating records. -/
theorem split_json_list_join (size : α → Nat) (max_size : Nat) (l : List α) :
    (split_json_list size l max_size).flatten = l := by
  simpa using split_json_list.go_join size max_size l [] 0

theorem split_json_list.go_mem_ne_nil (size : α → Nat) (max_size : Nat) :
    ∀ (l current_list : List α) (current_size : Nat),
      current_list ≠ [] →
      ∀ g ∈ split_json_list.go size max_size l current_list current_size, g ≠ [] := by
  intro l
  induction l with
  | nil =>
      intro current_list current_size hne g hg
      cases current_list with
      | nil => exact absurd rfl hne
      | cons c cs =>
          simp [split_json_list.go] at hg
          simp [hg]
  | cons item rest ih =>
      intro current_list current_size hne g hg
      by_cases h : current_size + size item > max_size
      · simp only [split_json_list.go, if_pos h] at hg
        rcases List.mem_cons.mp hg with hg | hg
        · simpa [hg] using hne
        · exact ih [item] (size item) (by simp) g hg
      · simp only [split_json_list.go, if_neg h] at hg
        exact ih (current_list ++ [item]) (current_size + size item) (by simp) g hg

theorem split_json_list.go_ne_nil (size : α → Nat) (max_size : Nat) :
    ∀ (l current_list : List α) (current_size : Nat),
      current_list ≠ [] →
      split_json_list.go size max_size l current_list current_size ≠ [] := by
  intro l
  induction l with
  | nil =>
      intro current_list current_size hne
      cases current_list with
      | nil => exact absurd rfl hne
      | cons c cs => simp [split_json_list.go]
  | cons item rest ih =>
      intro current_list current_size hne
      by_cases h : current_size + size item > max_size
      · simp [split_json_list.go, h]
      · simp only [split_json_list.go, if_neg h]
        exact ih (current_list ++ [item]) (current_size + size item) (by simp)

theorem split_json_list.go_drop_one_ne_nil (size : α → Nat) (max_size : Nat) :
    ∀ (l current_list : List α) (current_size : Nat),
      ∀ g ∈ (split_json_list.go size max_size l current_list current_size).drop 1,
        g ≠ [] := by
  intro l
  induction l with
  | nil =>
      intro current_list current_size g hg
      by_cases h : current_list.isEmpty <;> simp [split_json_list.go, h] at hg
  | cons item rest ih =>
      intro current_list current_size g hg
      by_cases h : current_size + size item > max_size
      · simp only [split_json_list.go, if_pos h, List.drop_succ_cons, List.drop_zero] at hg
        exact split_json_list.go_mem_ne_nil size max_size rest [item] (size item)
          (by simp) g hg
      · simp only [split_json_list.go, if_neg h] at hg
        exact ih (current_list ++ [item]) (current_size + size item) g hg

theorem split_json_list_ne_nil (size : α → Nat) (max_size : Nat) (a : α) (rest : List α) :
    split_json_list size (a :: rest) max_size ≠ [] := by
  show split_json_list.go size max_size (a :: rest) [] 0 ≠ []
  simp only [split_json_list.go]
  by_cases h : 0 + size a > max_size
  · rw [if_pos h]
    simp
  · rw [if_neg h]
    exact split_json_list.go_ne_nil size max_size rest ([] ++ [a]) (0 + size a) (by simp)

/-- C3 counterexample: with ten copies of a record whose serialized size
is 8 bytes (as `json.dumps({"a": 1})` is) and `max_bytes = 1`,
`_split_json_list` returns an empty group followed by ten singleton
groups — eleven groups in total, one of them empty, although the input
is non-empty.  The claim said the result is exactly ten singleton
groups with no empty group. -/
theorem split_json_list_empty_group_cex :
    ([] ∈ split_json_list (fun _ : Nat => 8) (List.replicate 10 1) 1) ∧
    split_json_list (fun _ : Nat => 8) (List.replicate 10 1) 1 =
      [] :: List.replicate 10 [1] ∧
    List.replicate 10 1 ≠ ([] : List Nat) := by
  refine ⟨?_, ?_, ?_⟩ <;> decide

/-- C3 amended: the result of `_split_json_list` is empty exactly when
the input is empty; no group other than the first is ever empty; and
when the first record's serialized size is within `max_bytes`, no group
at all is empty.  (The one deviation from the claim: when the first
record is oversized, the loop closes the still-empty accumulator and so
emits a leading empty group — `split([\x7b"a":1\x7d]*10, max_bytes=1)` yields
one empty group followed by ten singleton groups, not ten groups.) -/
theorem split_json_list_empty_groups (size : α → Nat) (max_size : Nat) (l : List α) :
    (split_json_list size l max_size = [] ↔ l = []) ∧
    (∀ g ∈ (split_json_list size l max_size).drop 1, g ≠ []) ∧
    (∀ a rest, l = a :: rest → size a ≤ max_size →
      ∀ g ∈ split_json_list size l max_size, g ≠ []) := by
  refine ⟨?_, ?_, ?_⟩
  · constructor
    · intro hnil
      cases l with
      | nil => rfl
      | cons a rest => exact absurd hnil (split_json_list_ne_nil size max_size a rest)
    · intro hl
      subst hl
      simp [split_json_list, split_json_list.go]
  · exact fun g hg => split_json_list.go_drop_one_ne_nil size max_size l [] 0 g hg
  · intro a rest hl hsize g hg
    subst hl
    have h : ¬ 0 + size a > max_size := by omega
    rw [show split_json_list size (a :: rest) max_size =
        split_json_list.go size max_size rest ([] ++ [a]) (0 + size a) from by
          simp only [split_json_list, split_json_list.go, if_neg h]] at hg
    exact split_json_list.go_mem_ne_nil size max_size rest ([] ++ [a]) (0 + size a)
      (by simp) g hg

/-- C3 amended witness: a concrete group of the split of `[5, 7]` is
non-empty, and the split of the empty input is the empty list of
groups. -/
theorem split_json_list_empty_groups_witness :
    (([5, 7] : List Nat) ≠ []) ∧
    split_json_list (fun _ : Nat => 3) ([] : List Nat) 8 = [] :=
  ⟨(split_json_list_empty_groups (fun _ : Nat => 3) 8 [5, 7]).2.2 5 [7] rfl (by decide)
      [5, 7] (by decide),
   (split_json_list_empty_groups (fun _ : Nat => 3) 8 ([] : List Nat)).1.mpr rfl⟩

theorem split_json_list.go_size_bound (size : α → Nat) (max_size : Nat) :
    ∀ (l current_list : List α),
      (current_list.length ≤ 1 ∨ serializedSize size current_list ≤ max_size) →
      ∀ g ∈ split_json_list.go size max_size l current_list
          (serializedSize size current_list),
        g.length ≤ 1 ∨ serializedSize size g ≤ max_size := by
  intro l
  induction l with
  | nil =>
      intro current_list hinv g hg
      by_cases h : current_list.isEmpty
      · simp [split_json_list.go, h] at hg
      · simp [split_json_list.go, h] at hg
        exact hg ▸ hinv
  | cons item rest ih =>
      intro current_list hinv g hg
      by_cases h : serializedSize size current_list + size item > max_size
      · simp only [split_json_list.go, if_pos h] at hg
        rcases List.mem_cons.mp hg with hg | hg
        · exact hg ▸ hinv
        · have hrec := ih [item] (Or.inl (by simp))
          rw [serializedSize_singleton] at hrec
          exact hrec g hg
      · simp only [split_json_list.go, if_neg h] at hg
        have hle : serializedSize size (current_list ++ [item]) ≤ max_size := by
          rw [serializedSize_append, serializedSize_singleton]
          omega
        have hrec := ih (current_list ++ [item]) (Or.inr hle)
        rw [serializedSize_append, serializedSize_singleton] at hrec
        exact hrec g hg

/-- C4: every group produced by `_split_json_list` that contains two or
more records has total serialized size at most `max_bytes`; only a
group holding a single oversized record (or the degenerate leading
empty group) can exceed the limit. -/
theorem split_json_list_size_bound (size : α → Nat) (max_size : Nat) (l : List α)
    (g : List α) (hg : g ∈ split_json_list size l max_size) (h2 : 2 ≤ g.length) :
    serializedSize size g ≤ max_size := by
  have hmem : g ∈ split_json_list.go size max_size l [] (serializedSize size []) := hg
  rcases split_json_list.go_size_bound size max_size l [] (Or.inl (by simp)) g hmem with
    h1 | h
  · omega
  · exact h

/-- C4 witness: the two-record group `[5, 7]` (each record of size 3)
returned by the split with limit 8 has total size at most 8. -/
theorem split_json_list_size_bound_witness :
    serializedSize (fun _ : Nat => 3) [5, 7] ≤ 8 :=
  split_json_list_size_bound (fun _ : Nat => 3) 8 [5, 7] [5, 7] (by decide) (by decide)

/-- The mutable part of the session context built in
`SalesforceDataCloud.__init__` and mutated by `_authenticate`.  Times
are in milliseconds; token fields start unset (`none`). -/
structure AuthContext where
  dne_cdpTokenRefreshTime : Int
  dne_cdpAssertion : Option String
  dne_cdpAuthToken : Option String
  dne_cdpInstanceUrl : Option String
  dne_cdpOffcoreToken : Option String
  dne_cdpOffcoreUrl : Option String
deriving Repr, DecidableEq

/-- The context as `__init__` leaves it: `dne_cdpTokenRefreshTime = 0`,
no tokens. -/
def initialContext : AuthContext := ⟨0, none, none, none, none, none⟩

/-- A parsed token-endpoint response: HTTP status, raw body, and the
two JSON fields `_authenticate` reads on success. -/
structure TokenResponse where
  statusCode : Nat
  text : String
  access_token : String
  instance_url : String
deriving Repr, DecidableEq

/-- The two network requests `_authenticate` can issue: the S2S access
token POST to the login host and the Data Cloud token-exchange POST to
the returned instance. -/
inductive NetCall
  | s2sTokenRequest
  | cdpTokenExchange
deriving Repr, DecidableEq

/-- Result of a run of `_authenticate`: the session context after the
call (the Python object is mutated in place, so it is defined even when
an exception was raised), the raised error if any, and the network
calls issued, in order. -/
structure AuthOutcome where
  context : AuthContext
  error : Option SalesforceDataCloudError
  calls : List NetCall
deriving Repr, DecidableEq

/-- The fixed login host from `__init__` (`"login.salesforce.com"`). -/
def loginUrl : String := "login.salesforce.com"

/-- The S2S token endpoint URL built at source line 114. -/
def s2s_url : String := "https://" ++ loginUrl ++ "/services/oauth2/token"

/-- Exact rounding of the rational `n / d` (for `d > 0`) to the nearest
integer with ties to even — the behaviour of Python's builtin `round`,
used at source line 78 to compute the token age in minutes. -/
def roundHalfToEven (n d : Int) : Int :=
  if 2 * (n - d * Int.fdiv n d) < d then Int.fdiv n d
  else if d < 2 * (n - d * Int.fdiv n d) then Int.fdiv n d + 1
  else if Int.fdiv n d % 2 = 0 then Int.fdiv n d else Int.fdiv n d + 1

/-- Token age in minutes as computed at source line 78:
`round((time.time() * 1000 - dne_cdpTokenRefreshTime) / 60000)`. -/
def cdpTokenAge (ctx : AuthContext) (nowMs : Int) : Int :=
  roundHalfToEven (nowMs - ctx.dne_cdpTokenRefreshTime) 60000

/-- Mirror of `SalesforceDataCloud._authenticate` (source lines
71-155).  `nowMs` is the current wall-clock time in milliseconds,
`jwt_token` the signed assertion produced by `jwt.encode`, and
`s2s_response` / `cdp_response` are the responses the two token
endpoints would return if called.  If the cached token's age is below
115 minutes and `force_refresh` is false, nothing happens; otherwise
the refresh timestamp is set (before any network call, source line 85),
the S2S exchange runs, and on its success the Data Cloud exchange runs,
each raising the structured error on a non-200 status. -/
def authenticate (ctx : AuthContext) (nowMs : Int) (force_refresh : Bool)
    (jwt_token : String) (s2s_response cdp_response : TokenResponse) : AuthOutcome :=
  if cdpTokenAge ctx nowMs < 115 ∧ force_refresh = false then
    ⟨ctx, none, []⟩
  else
    let ctx1 : AuthContext :=
      ⟨nowMs, some jwt_token, ctx.dne_cdpAuthToken, ctx.dne_cdpInstanceUrl,
        ctx.dne_cdpOffcoreToken, ctx.dne_cdpOffcoreUrl⟩
    if s2s_response.statusCode ≠ 200 then
      ⟨ctx1,
        some ⟨"Get S2S Access Token", s2s_url, s2s_response.statusCode, s2s_response.text⟩,
        [NetCall.s2sTokenRequest]⟩
    else
      let ctx2 : AuthContext :=
        ⟨nowMs, some jwt_token, some s2s_response.access_token,
          some s2s_response.instance_url, ctx.dne_cdpOffcoreToken, ctx.dne_cdpOffcoreUrl⟩
      if cdp_response.statusCode ≠ 200 then
        ⟨ctx2,
          some ⟨"Data Cloud Token Exchange",
            s2s_response.instance_url ++ "/services/a360/token",
            cdp_response.statusCode, cdp_response.text⟩,
          [NetCall.s2sTokenRequest, NetCall.cdpTokenExchange]⟩
      else
        ⟨⟨nowMs, some jwt_token, some s2s_response.access_token,
            some s2s_response.instance_url, some cdp_response.access_token,
            some cdp_response.instance_url⟩,
          none,
          [NetCall.s2sTokenRequest, NetCall.cdpTokenExchange]⟩

/-- A successful token-endpoint response, for concrete runs. -/
def sampleTokenOk : TokenResponse := ⟨200, "ok", "token-value", "inst.example"⟩

/-- A failing token-endpoint response, for concrete runs. -/
def sampleToken401 : TokenResponse := ⟨401, "unauthorized", "", ""⟩

theorem authenticate_refresh_calls (ctx : AuthContext) (nowMs : Int) (force : Bool)
    (j : String) (s c : TokenResponse)
    (h : ¬ (cdpTokenAge ctx nowMs < 115 ∧ force = false)) :
    (authenticate ctx nowMs force j s c).calls =
      if s.statusCode ≠ 200 then [NetCall.s2sTokenRequest]
      else [NetCall.s2sTokenRequest, NetCall.cdpTokenExchange] := by
  by_cases hs : s.statusCode ≠ 200
  · simp [authenticate, h, hs]
  · by_cases hc : c.statusCode ≠ 200
    · simp [authenticate, h, hs, hc]
    · simp [authenticate, h, hs, hc]

/-- C5: if the cached token's age is below the 115-minute threshold and
`force_refresh` is false, `_authenticate` makes no network call and
leaves the context unchanged; a refresh at `nowA` with successful
responses performs the full two-step exchange, after which a second
call within the freshness window performs none (exactly one exchange
sequence for the two calls); and with `force_refresh = true` the
exchange is always attempted regardless of token age. -/
theorem authenticate_token_caching
    (ctx : AuthContext) (nowA nowB : Int) (j j2 : String)
    (s c s2 c2 : TokenResponse) :
    (cdpTokenAge ctx nowA < 115 →
        authenticate ctx nowA false j s c = ⟨ctx, none, []⟩) ∧
    (¬ cdpTokenAge ctx nowA < 115 → s.statusCode = 200 → c.statusCode = 200 →
        roundHalfToEven (nowB - nowA) 60000 < 115 →
        (authenticate ctx nowA false j s c).calls =
            [NetCall.s2sTokenRequest, NetCall.cdpTokenExchange] ∧
        authenticate (authenticate ctx nowA false j s c).context nowB false j2 s2 c2 =
            ⟨(authenticate ctx nowA false j s c).context, none, []⟩) ∧
    ((authenticate ctx nowA true j s c).calls ≠ []) ∧
    (s.statusCode = 200 → c.statusCode = 200 →
        (authenticate ctx nowA true j s c).calls =
            [NetCall.s2sTokenRequest, NetCall.cdpTokenExchange]) := by
  refine ⟨?_, ?_, ?_, ?_⟩
  · intro hfresh
    simp [authenticate, hfresh]
  · intro hstale hs hc hfresh
    have h1 : authenticate ctx nowA false j s c =
        ⟨⟨nowA, some j, some s.access_token, some s.instance_url,
            some c.access_token, some c.instance_url⟩, none,
          [NetCall.s2sTokenRequest, NetCall.cdpTokenExchange]⟩ := by
      simp [authenticate, hstale, hs, hc]
    refine ⟨by rw [h1], ?_⟩
    rw [h1]
    have hage : cdpTokenAge ⟨nowA, some j, some s.access_token, some s.instance_url,
        some c.access_token, some c.instance_url⟩ nowB < 115 := by
      simpa [cdpTokenAge] using hfresh
    simp [authenticate, hage]
  · rw [authenticate_refresh_calls ctx nowA true j s c (by simp)]
    split <;> simp
  · intro hs hc
    rw [authenticate_refresh_calls ctx nowA true j s c (by simp)]
    simp [hs]

/-- C5 witness: a first refresh at time 7000000000 ms from the initial
context performs one two-step exchange, and a second call one minute
later performs no network call and leaves the context unchanged. -/
theorem authenticate_token_caching_witness :
    (authenticate initialContext 7000000000 false "jwt" sampleTokenOk sampleTokenOk).calls =
      [NetCall.s2sTokenRequest, NetCall.cdpTokenExchange] ∧
    authenticate
        (authenticate initialContext 7000000000 false "jwt" sampleTokenOk sampleTokenOk).context
        7000060000 false "jwt2" sampleTokenOk sampleTokenOk =
      ⟨(authenticate initialContext 7000000000 false "jwt" sampleTokenOk
          sampleTokenOk).context, none, []⟩ :=
  (authenticate_token_caching initialContext 7000000000 7000060000 "jwt" "jwt2"
      sampleTokenOk sampleTokenOk sampleTokenOk sampleTokenOk).2.1
    (by decide) (by decide) (by decide) (by decide)

/-- C6 counterexample: starting from the freshly initialised context
(refresh time 0) at time 7000000000 ms, the S2S step returns 401, so
the call raises — yet `dne_cdpTokenRefreshTime` has already been
updated from 0 to the current time (source line 85 sets it before
either exchange step), contradicting the claim that the timestamp is
updated only when the full two-step exchange succeeds. -/
theorem authenticate_timestamp_cex :
    ((authenticate initialContext 7000000000 false "jwt" sampleToken401
        sampleTokenOk).error =
      some ⟨"Get S2S Access Token", s2s_url, 401, "unauthorized"⟩) ∧
    (authenticate initialContext 7000000000 false "jwt" sampleToken401
        sampleTokenOk).context.dne_cdpTokenRefreshTime = 7000000000 ∧
    initialContext.dne_cdpTokenRefreshTime = 0 := by
  refine ⟨?_, ?_, ?_⟩ <;> decide

/-- C6 amended: whenever a refresh is attempted (token stale or
`force_refresh` set), `_authenticate` sets `dne_cdpTokenRefreshTime` to
the current time before either exchange step; a non-success status from
either step raises the structured error for that step, but the updated
timestamp — and, for a second-step failure, the first-step token and
instance URL — remain in the session context rather than being rolled
back. -/
theorem authenticate_timestamp_amended
    (ctx : AuthContext) (nowMs : Int) (force : Bool) (j : String) (s c : TokenResponse)
    (hattempt : ¬ (cdpTokenAge ctx nowMs < 115 ∧ force = false)) :
    ((authenticate ctx nowMs force j s c).context.dne_cdpTokenRefreshTime = nowMs) ∧
    ((authenticate ctx nowMs force j s c).error = none ↔
        s.statusCode = 200 ∧ c.statusCode = 200) ∧
    (s.statusCode ≠ 200 →
        (authenticate ctx nowMs force j s c).error =
          some ⟨"Get S2S Access Token", s2s_url, s.statusCode, s.text⟩) ∧
    (s.statusCode = 200 → c.statusCode ≠ 200 →
        (authenticate ctx nowMs force j s c).error =
          some ⟨"Data Cloud Token Exchange",
            s.instance_url ++ "/services/a360/token", c.statusCode, c.text⟩ ∧
        (authenticate ctx nowMs force j s c).context.dne_cdpAuthToken =
          some s.access_token) := by
  by_cases hs : s.statusCode ≠ 200
  · simp [authenticate, hattempt, hs]
  · by_cases hc : c.statusCode ≠ 200
    · simp [authenticate, hattempt, hs, hc]
    · rw [not_not] at hs hc
      simp [authenticate, hattempt, hs, hc]

/-- C6 amended witness: with a forced refresh whose second exchange
step fails with 401, the error is the Data Cloud Token Exchange error
and the first-step token is left in the context. -/
theorem authenticate_timestamp_amended_witness :
    (authenticate initialContext 7000000000 true "jwt" sampleTokenOk
        sampleToken401).error =
      some ⟨"Data Cloud Token Exchange",
        sampleTokenOk.instance_url ++ "/services/a360/token",
        sampleToken401.statusCode, sampleToken401.text⟩ ∧
    (authenticate initialContext 7000000000 true "jwt" sampleTokenOk
        sampleToken401).context.dne_cdpAuthToken = some sampleTokenOk.access_token :=
  (authenticate_timestamp_amended initialContext 7000000000 true "jwt" sampleTokenOk
      sampleToken401 (by decide)).2.2.2 (by decide) (by decide)

/-- The streaming-ingest URL built at source lines 201-204 of
`streaming_upsert` (with `/actions/test` appended in test mode). -/
def streaming_url (offcoreUrl source_api_name source_object_name : String)
    (test_mode : Bool) : String :=
  if test_mode then
    "https://" ++ offcoreUrl ++ "/api/v1/ingest/sources/" ++ source_api_name ++ "/" ++
      source_object_name ++ "/actions/test"
  else
    "https://" ++ offcoreUrl ++ "/api/v1/ingest/sources/" ++ source_api_name ++ "/" ++
      source_object_name

/-- Result of a run of `streaming_upsert`: the returned value (the last
POST's response, `none` when no POST was issued) or the raised error,
together with the number of POSTs issued. -/
structure StreamingOutcome where
  result : Except SalesforceDataCloudError (Option HttpResponse)
  posts : Nat
deriving Repr

/-- The `for chunk in self._split_json_list(...)` loop of
`streaming_upsert` (source lines 198-212): one POST per chunk, in
order; `responses i` is the response to the i-th POST; a non-202
status raises the structured error, skipping the remaining chunks. -/
def streaming_upsert.go (url : String) (responses : Nat → HttpResponse) :
    List (List α) → Nat → Option HttpResponse → StreamingOutcome
  | [], _, response => ⟨Except.ok response, 0⟩
  | _chunk :: chunks, i, _ =>
      if (responses i).statusCode ≠ 202 then
        ⟨Except.error ⟨"Streaming UPSERT", url, (responses i).statusCode,
          (responses i).text⟩, 1⟩
      else
        ⟨(streaming_upsert.go url responses chunks (i + 1) (some (responses i))).result,
          (streaming_upsert.go url responses chunks (i + 1) (some (responses i))).posts + 1⟩

/-- Mirror of `SalesforceDataCloud.streaming_upsert` (source lines
181-214) after its internal `_authenticate` call: split `data["data"]`
at the streaming payload limit and POST the chunks in order. -/
def streaming_upsert (size : α → Nat)
    (offcoreUrl source_api_name source_object_name : String)
    (data : List α) (test_mode : Bool) (responses : Nat → HttpResponse) :
    StreamingOutcome :=
  streaming_upsert.go
    (streaming_url offcoreUrl source_api_name source_object_name test_mode)
    responses (split_json_list size data STREAMING_API_MAX_PAYLOAD_SIZE) 0 none

theorem streaming_upsert.go_all_ok (url : String) (responses : Nat → HttpResponse) :
    ∀ (chunks : List (List α)) (i : Nat) (prev : Option HttpResponse),
      (∀ k, k < chunks.length → (responses (i + k)).statusCode = 202) →
      streaming_upsert.go url responses chunks i prev =
        ⟨Except.ok (if chunks.isEmpty then prev
            else some (responses (i + chunks.length - 1))),
          chunks.length⟩ := by
  intro chunks
  induction chunks with
  | nil =>
      intro i prev h
      simp [streaming_upsert.go]
  | cons chunk rest ih =>
      intro i prev h
      have h0 : (responses i).statusCode = 202 := by simpa using h 0 (by simp)
      have hrest : ∀ k, k < rest.length → (responses (i + 1 + k)).statusCode = 202 := by
        intro k hk
        have := h (k + 1) (by simpa using Nat.succ_lt_succ hk)
        simpa [Nat.add_assoc, Nat.add_comm, Nat.add_left_comm] using this
      simp only [streaming_upsert.go, h0, ne_eq, not_true_eq_false, if_false,
        ite_false]
      rw [ih (i + 1) (some (responses i)) hrest]
      cases rest with
      | nil => simp
      | cons r2 rs =>
          simp [Nat.add_assoc, Nat.add_comm, Nat.add_left_comm, Nat.succ_sub_one]

theorem streaming_upsert.go_first_fail (url : String) (responses : Nat → HttpResponse) :
    ∀ (chunks : List (List α)) (i : Nat) (prev : Option HttpResponse) (fails : Nat),
      fails < chunks.length →
      (responses (i + fails)).statusCode ≠ 202 →
      (∀ k, k < fails → (responses (i + k)).statusCode = 202) →
      streaming_upsert.go url responses chunks i prev =
        ⟨Except.error ⟨"Streaming UPSERT", url, (responses (i + fails)).statusCode,
          (responses (i + fails)).text⟩, fails + 1⟩ := by
  intro chunks
  induction chunks with
  | nil =>
      intro i prev fails h
      simp at h
  | cons chunk rest ih =>
      intro i prev fails hlt hfail hok
      cases fails with
      | zero =>
          simp only [Nat.add_zero] at hfail
          simp [streaming_upsert.go, hfail]
      | succ f =>
          have h0 : (responses i).statusCode = 202 := by
            simpa using hok 0 (Nat.succ_pos f)
          have hlt' : f < rest.length := by simpa using Nat.lt_of_succ_lt_succ hlt
          have hfail' : (responses (i + 1 + f)).statusCode ≠ 202 := by
            have hidx : i + 1 + f = i + (f + 1) := by omega
            rw [hidx]
            exact hfail
          have hok' : ∀ k, k < f → (responses (i + 1 + k)).statusCode = 202 := by
            intro k hk
            have hidx : i + 1 + k = i + (k + 1) := by omega
            rw [hidx]
            exact hok (k + 1) (Nat.succ_lt_succ hk)
          simp only [streaming_upsert.go, h0, ne_eq, not_true_eq_false, if_false,
            ite_false]
          rw [ih (i + 1) (some (responses i)) f hlt' hfail' hok']
          have hidx : i + 1 + f = i + (f + 1) := by omega
          simp [hidx]

/-- C8: `streaming_upsert` splits the input at the 200 KB streaming
limit and issues one POST per group in order; when every response is
202 it returns the last POST's response unchanged after exactly one
POST per group; on the first non-202 response it raises the structured
error and does not POST the remaining groups; and with two records
whose sizes fit the limit together it issues exactly one POST and
returns that POST's response. -/
theorem streaming_upsert_spec (size : α → Nat)
    (offcoreUrl sa so : String) (data : List α) (tm : Bool)
    (responses : Nat → HttpResponse) (r1 r2 : α) :
    ((∀ k, k < (split_json_list size data STREAMING_API_MAX_PAYLOAD_SIZE).length →
        (responses k).statusCode = 202) →
      streaming_upsert size offcoreUrl sa so data tm responses =
        ⟨Except.ok
            (if (split_json_list size data STREAMING_API_MAX_PAYLOAD_SIZE).isEmpty
              then none
              else some (responses
                ((split_json_list size data STREAMING_API_MAX_PAYLOAD_SIZE).length - 1))),
          (split_json_list size data STREAMING_API_MAX_PAYLOAD_SIZE).length⟩) ∧
    (∀ fails,
      fails < (split_json_list size data STREAMING_API_MAX_PAYLOAD_SIZE).length →
      (responses fails).statusCode ≠ 202 →
      (∀ k, k < fails → (responses k).statusCode = 202) →
      streaming_upsert size offcoreUrl sa so data tm responses =
        ⟨Except.error ⟨"Streaming UPSERT", streaming_url offcoreUrl sa so tm,
            (responses fails).statusCode, (responses fails).text⟩, fails + 1⟩) ∧
    (data = [r1, r2] → size r1 + size r2 ≤ STREAMING_API_MAX_PAYLOAD_SIZE →
      (responses 0).statusCode = 202 →
      streaming_upsert size offcoreUrl sa so data tm responses =
        ⟨Except.ok (some (responses 0)), 1⟩) := by
  refine ⟨?_, ?_, ?_⟩
  · intro h
    have hgo := streaming_upsert.go_all_ok (streaming_url offcoreUrl sa so tm) responses
      (split_json_list size data STREAMING_API_MAX_PAYLOAD_SIZE) 0 none
      (by simpa using h)
    simpa [streaming_upsert] using hgo
  · intro fails hlt hfail hok
    have hgo := streaming_upsert.go_first_fail (streaming_url offcoreUrl sa so tm)
      responses (split_json_list size data STREAMING_API_MAX_PAYLOAD_SIZE) 0 none fails
      hlt (by simpa using hfail) (by simpa using hok)
    simpa [streaming_upsert] using hgo
  · intro hdata hsz h0
    subst hdata
    have hchunks : split_json_list size [r1, r2] STREAMING_API_MAX_PAYLOAD_SIZE =
        [[r1, r2]] := by
      have h1 : ¬ 0 + size r1 > STREAMING_API_MAX_PAYLOAD_SIZE := by omega
      have h2 : ¬ 0 + size r1 + size r2 > STREAMING_API_MAX_PAYLOAD_SIZE := by omega
      simp only [split_json_list, split_json_list.go, if_neg h1, if_neg h2]
      simp
    simp only [streaming_upsert, hchunks]
    simp [streaming_upsert.go, h0]

/-- C8 witness: two records of size 10 under the 200 KB limit cause a
single POST whose 202 response is returned unchanged. -/
theorem streaming_upsert_spec_witness :
    streaming_upsert (fun _ : Nat => 10) "inst.example" "api" "obj" [1, 2] false
        (fun _ => ⟨202, "accepted"⟩) =
      ⟨Except.ok (some ⟨202, "accepted"⟩), 1⟩ :=
  (streaming_upsert_spec (fun _ : Nat => 10) "inst.example" "api" "obj" [1, 2] false
      (fun _ => ⟨202, "accepted"⟩) 1 2).2.2 rfl (by decide) rfl

/-- C10: calling `streaming_upsert` with an empty record list issues no
POST to the streaming endpoint and returns `None` (the loop never runs,
so the `response` local keeps its initial value). -/
theorem streaming_upsert_empty_data (size : α → Nat)
    (offcoreUrl sa so : String) (tm : Bool) (responses : Nat → HttpResponse) :
    streaming_upsert size offcoreUrl sa so [] tm responses =
      ⟨Except.ok none, 0⟩ := rfl

/-- Mirror of `SalesforceDataCloud._close_job` (source lines 247-267):
after the internal `_authenticate` call, the PATCH response is logged
and returned unconditionally — `_close_job` performs no status-code
check.  `authError` models a failure raised by the internal
`_authenticate`, in which case the PATCH is never sent.  `abort_job`
is `_close_job` with state `"Aborted"`. -/
def close_job (authError : Option SalesforceDataCloudError) (response : HttpResponse) :
    Except SalesforceDataCloudError HttpResponse :=
  match authError with
  | some e => Except.error e
  | none => Except.ok response

/-- Mirror of `SalesforceDataCloud.list_jobs` (source lines 348-369)
after authentication: the GET response is logged and returned with no
status-code check. -/
def list_jobs (response : HttpResponse) : Except SalesforceDataCloudError HttpResponse :=
  Except.ok response

/-- Mirror of `SalesforceDataCloud.job_info` (source lines 371-389)
after authentication: the GET response is logged and returned with no
status-code check. -/
def job_info (response : HttpResponse) : Except SalesforceDataCloudError HttpResponse :=
  Except.ok response

/-- Mirror of `SalesforceDataCloud._create_job` (source lines 216-245):
expects HTTP 201, raising the structured error otherwise; on success
returns the job id parsed from the response body (`parsed_job_id`). -/
def create_job (offcoreUrl : String) (response : HttpResponse)
    (parsed_job_id : String) : Except SalesforceDataCloudError String :=
  if response.statusCode ≠ 201 then
    Except.error ⟨"Create Job", "https://" ++ offcoreUrl ++ "/api/v1/ingest/jobs",
      response.statusCode, response.text⟩
  else
    Except.ok parsed_job_id

/-- Mirror of the status check in `split_callback` inside
`_bulk_operation` (source lines 284-296): a file-part PUT expects HTTP
202, raising the structured error otherwise. -/
def upload_file_check (url : String) (response : HttpResponse) :
    Except SalesforceDataCloudError HttpResponse :=
  if response.statusCode ≠ 202 then
    Except.error ⟨"Upload File", url, response.statusCode, response.text⟩
  else
    Except.ok response

/-- A row of a query result, as a list of cell values. -/
abbrev Row := List String

/-- One parsed response of the query endpoint: HTTP status, raw body,
the rows under `"data"`, the `"done"` flag and the `"nextBatchId"`
pagination marker. -/
structure QueryPage where
  statusCode : Nat
  text : String
  data : List Row
  done : Bool
  nextBatchId : String
deriving Repr, DecidableEq

/-- Model of `pandas.DataFrame.append(other, ignore_index=True)`: it
returns the concatenation as a NEW frame and does not modify the
receiver in place. -/
def dataFrameAppend (df df2 : List Row) : List Row := df ++ df2

/-- The `while not response_dict["done"]` loop of
`SalesforceDataCloud.query` (source lines 441-453).  `pages` is the
oracle of responses the pagination endpoint returns, consumed in
order; the result is `none` when the loop would need more pages than
the oracle provides.  Faithful to source line 453, the value of
`df.append(df2, ignore_index=True)` is computed and discarded, and
`df` itself is passed on unchanged. -/
def query.fetchLoop (offcoreUrl : String) :
    List QueryPage → QueryPage → List Row →
      Option (Except SalesforceDataCloudError (List Row))
  | [], response_dict, df =>
      if response_dict.done then some (Except.ok df) else none
  | next :: rest, response_dict, df =>
      if response_dict.done then some (Except.ok df)
      else if next.statusCode ≠ 200 then
        some (Except.error ⟨"Query",
          "https://" ++ offcoreUrl ++ "/api/v2/query/" ++ response_dict.nextBatchId,
          next.statusCode, next.text⟩)
      else
        let _discardedAppend := dataFrameAppend df next.data
        query.fetchLoop offcoreUrl rest next df

/-- Mirror of `SalesforceDataCloud.query` (source lines 412-456) after
authentication: POST the SQL, check for HTTP 200, seed the data frame
with the first page's rows, then follow `nextBatchId` until `done` is
true. -/
def query (offcoreUrl : String) (first_response : QueryPage) (pages : List QueryPage) :
    Option (Except SalesforceDataCloudError (List Row)) :=
  if first_response.statusCode ≠ 200 then
    some (Except.error ⟨"Query", "https://" ++ offcoreUrl ++ "/api/v2/query",
      first_response.statusCode, first_response.text⟩)
  else
    query.fetchLoop offcoreUrl pages first_response first_response.data

/-- C1 (code bug): on a two-page result the loop does fetch the second
page by `nextBatchId` and terminates on `done`, but the returned frame
contains only the first page's rows: the result of
`df.append(df2, ignore_index=True)` at source line 453 is discarded
(`DataFrame.append` returns a new frame and is not in-place), so the
rows of all fetched pages are never concatenated.  The second conjunct
shows the concatenation the claim requires would have held both
pages' rows. -/
theorem query_drops_subsequent_pages :
    query "inst.example" ⟨200, "ok", [["row1"]], false, "batch2"⟩
        [⟨200, "ok", [["row2"]], true, ""⟩] =
      some (Except.ok [["row1"]]) ∧
    dataFrameAppend [["row1"]] [["row2"]] = [["row1"], ["row2"]] := by
  constructor <;> rfl

/-- C7 counterexample: `_close_job` performs no status-code check — a
PATCH response with status 500 is returned normally instead of raising
the structured error, so not every REST call site raises on an
unexpected status. -/
theorem close_job_returns_on_500_cex :
    close_job none ⟨500, "Internal Server Error"⟩ =
      Except.ok ⟨500, "Internal Server Error"⟩ := rfl

/-- C7 amended: the call sites that do check a status code —
`_create_job` (201), the file-part upload in `_bulk_operation` (202),
`streaming_upsert` (202), `query` (200) and both `_authenticate`
exchange steps (200) — raise the structured `SalesforceDataCloudError`
carrying the operation name, the request URL, and the received status
code and response body verbatim; but `_close_job` (hence `abort_job`),
`list_jobs` and `job_info` inspect no status code and return the
response unchanged whatever its status. -/
theorem rest_status_translation (r : HttpResponse)
    (offcoreUrl sa so jid jurl : String)
    (ctx : AuthContext) (nowMs : Int) (j : String) (s c : TokenResponse) :
    (r.statusCode ≠ 201 → create_job offcoreUrl r jid =
        Except.error ⟨"Create Job", "https://" ++ offcoreUrl ++ "/api/v1/ingest/jobs",
          r.statusCode, r.text⟩) ∧
    (r.statusCode ≠ 202 → upload_file_check jurl r =
        Except.error ⟨"Upload File", jurl, r.statusCode, r.text⟩) ∧
    (r.statusCode ≠ 202 →
        streaming_upsert (fun _ : Nat => 1) offcoreUrl sa so [0] false (fun _ => r) =
          ⟨Except.error ⟨"Streaming UPSERT", streaming_url offcoreUrl sa so false,
            r.statusCode, r.text⟩, 1⟩) ∧
    (r.statusCode ≠ 200 →
        query offcoreUrl ⟨r.statusCode, r.text, [], false, ""⟩ [] =
          some (Except.error ⟨"Query", "https://" ++ offcoreUrl ++ "/api/v2/query",
            r.statusCode, r.text⟩)) ∧
    (s.statusCode ≠ 200 → ¬ (cdpTokenAge ctx nowMs < 115 ∧ false = false) →
        (authenticate ctx nowMs false j s c).error =
          some ⟨"Get S2S Access Token", s2s_url, s.statusCode, s.text⟩) ∧
    (close_job none r = Except.ok r) ∧
    (list_jobs r = Except.ok r) ∧
    (job_info r = Except.ok r) := by
  refine ⟨?_, ?_, ?_, ?_, ?_, rfl, rfl, rfl⟩
  · intro h
    simp [create_job, h]
  · intro h
    simp [upload_file_check, h]
  · intro h
    have hchunks : split_json_list (fun _ : Nat => 1) [0]
        STREAMING_API_MAX_PAYLOAD_SIZE = [[0]] := by
      simp [split_json_list, split_json_list.go, STREAMING_API_MAX_PAYLOAD_SIZE]
    simp only [streaming_upsert, hchunks]
    simp [streaming_upsert.go, h]
  · intro h
    simp [query, h]
  · intro hs hatt
    have hAge : ¬ cdpTokenAge ctx nowMs < 115 := fun hlt => hatt ⟨hlt, rfl⟩
    simp [authenticate, hAge, hs]

/-- C7 amended witness: a 500 response makes `_create_job` raise the
Create Job error, while `_close_job` returns the same response
normally. -/
theorem rest_status_translation_witness :
    create_job "inst.example" ⟨500, "ise"⟩ "job-1" =
      Except.error ⟨"Create Job", "https://" ++ "inst.example" ++ "/api/v1/ingest/jobs",
        500, "ise"⟩ ∧
    close_job none ⟨500, "ise"⟩ = Except.ok ⟨500, "ise"⟩ :=
  ⟨(rest_status_translation ⟨500, "ise"⟩ "inst.example" "sa" "so" "job-1" "jurl"
        initialContext 0 "jwt" sampleToken401 sampleTokenOk).1 (by decide),
    (rest_status_translation ⟨500, "ise"⟩ "inst.example" "sa" "so" "job-1" "jurl"
        initialContext 0 "jwt" sampleToken401 sampleTokenOk).2.2.2.2.2.1⟩

/-- The terminal job-state transitions `_bulk_operation` can send via
`_close_job`: close with state `"UploadComplete"`, or abort (close with
state `"Aborted"`). -/
inductive JobTransition
  | uploadComplete
  | aborted
deriving Repr, DecidableEq

/-- Result of a run of `_bulk_operation`: the raised error if any, the
number of file-part uploads attempted, the terminal job-state
transitions actually sent over the wire (in order), whether a job was
created, and the local `job_id` variable at exit (`none` once
cleared). -/
structure BulkOutcome where
  error : Option SalesforceDataCloudError
  uploads_attempted : Nat
  transitions : List JobTransition
  job_created : Bool
  final_job_id : Option String
deriving Repr

/-- The sequential file-part uploads of `_bulk_operation` (the
`split_callback` PUTs, source lines 284-312): each response is checked
in order via `upload_file_check`, stopping at the first non-202;
returns the raised error (if any) and the number of uploads
attempted. -/
def bulk_operation.uploadLoop (url : String) :
    List HttpResponse → Option SalesforceDataCloudError × Nat
  | [] => (none, 0)
  | r :: rest =>
      match upload_file_check url r with
      | Except.error e => (some e, 1)
      | Except.ok _ =>
          ((bulk_operation.uploadLoop url rest).1,
            (bulk_operation.uploadLoop url rest).2 + 1)

/-- Mirror of `SalesforceDataCloud._bulk_operation` (source lines
269-320): create the job (HTTP 201 expected), upload the file parts,
close the job as `UploadComplete` and only then clear `job_id`; the
`finally` block aborts the job whenever `job_id` was not cleared.
`authError` models a failure of the `_authenticate` call inside
`_close_job` (in which case no PATCH is sent, and an exception raised
in the `finally` block replaces the in-flight one). -/
def bulk_operation (offcoreUrl : String) (create_response : HttpResponse)
    (parsed_job_id : String) (upload_responses : List HttpResponse)
    (authError : Option SalesforceDataCloudError)
    (close_response abort_response : HttpResponse) : BulkOutcome :=
  match create_job offcoreUrl create_response parsed_job_id with
  | Except.error e => ⟨some e, 0, [], false, none⟩
  | Except.ok job_id =>
    let url := "https://" ++ offcoreUrl ++ "/api/v1/ingest/jobs/" ++ job_id ++ "/batches"
    match bulk_operation.uploadLoop url upload_responses with
    | (some e, n) =>
        match close_job authError abort_response with
        | Except.error e2 => ⟨some e2, n, [], true, some job_id⟩
        | Except.ok _ => ⟨some e, n, [JobTransition.aborted], true, some job_id⟩
    | (none, n) =>
        match close_job authError close_response with
        | Except.error e2 =>
            match close_job authError abort_response with
            | Except.error e3 => ⟨some e3, n, [], true, some job_id⟩
            | Except.ok _ => ⟨some e2, n, [JobTransition.aborted], true, some job_id⟩
        | Except.ok _ => ⟨none, n, [JobTransition.uploadComplete], true, none⟩

theorem bulk_operation.uploadLoop_eq_none_iff (url : String) (rs : List HttpResponse) :
    (bulk_operation.uploadLoop url rs).1 = none ↔ ∀ r ∈ rs, r.statusCode = 202 := by
  induction rs with
  | nil => simp [bulk_operation.uploadLoop]
  | cons r rest ih =>
      by_cases h : r.statusCode ≠ 202
      · simp [bulk_operation.uploadLoop, upload_file_check, h]
      · rw [not_not] at h
        simp [bulk_operation.uploadLoop, upload_file_check, h, ih]

theorem bulk_operation.uploadLoop_all_ok (url : String) (rs : List HttpResponse)
    (h : ∀ r ∈ rs, r.statusCode = 202) :
    bulk_operation.uploadLoop url rs = (none, rs.length) := by
  induction rs with
  | nil => rfl
  | cons r rest ih =>
      have h0 : r.statusCode = 202 := h r (by simp)
      have hrest := ih fun r' hr' => h r' (by simp [hr'])
      simp [bulk_operation.uploadLoop, upload_file_check, h0, hrest]

theorem bulk_operation_cases (offcoreUrl : String) (create_response : HttpResponse)
    (parsed_job_id : String) (upload_responses : List HttpResponse)
    (authError : Option SalesforceDataCloudError)
    (close_response abort_response : HttpResponse)
    (hcr : create_response.statusCode = 201) :
    bulk_operation offcoreUrl create_response parsed_job_id upload_responses authError
        close_response abort_response =
      match bulk_operation.uploadLoop
          ("https://" ++ offcoreUrl ++ "/api/v1/ingest/jobs/" ++ parsed_job_id ++
            "/batches") upload_responses, authError with
      | (some _, n), some e2 => ⟨some e2, n, [], true, some parsed_job_id⟩
      | (some e, n), none =>
          ⟨some e, n, [JobTransition.aborted], true, some parsed_job_id⟩
      | (none, n), some e2 => ⟨some e2, n, [], true, some parsed_job_id⟩
      | (none, n), none =>
          ⟨none, n, [JobTransition.uploadComplete], true, none⟩ := by
  have hcj : create_job offcoreUrl create_response parsed_job_id =
      Except.ok parsed_job_id := by
    simp [create_job, hcr]
  rcases hul : bulk_operation.uploadLoop
      ("https://" ++ offcoreUrl ++ "/api/v1/ingest/jobs/" ++ parsed_job_id ++ "/batches")
      upload_responses with ⟨oe, n⟩
  cases oe <;> cases authError <;>
    simp [bulk_operation, hcj, close_job, hul]

/-- C9: in `_bulk_operation` the job's creation and closing bracket the
uploads: at most one terminal transition is ever sent for the created
job; the local job id is cleared only after a successful close as
`UploadComplete` (and then no error was raised); when some upload fails
(with working authentication at close time) the job is aborted, the
error is re-raised and the job id is never cleared; and when every
upload succeeds the job is closed as `UploadComplete`, all parts having
been uploaded, and the job id is cleared. -/
theorem bulk_operation_job_bracketing (offcoreUrl : String)
    (create_response : HttpResponse) (parsed_job_id : String)
    (upload_responses : List HttpResponse)
    (authError : Option SalesforceDataCloudError)
    (close_response abort_response : HttpResponse) :
    ((bulk_operation offcoreUrl create_response parsed_job_id upload_responses
        authError close_response abort_response).transitions.length ≤ 1) ∧
    ((bulk_operation offcoreUrl create_response parsed_job_id upload_responses
        authError close_response abort_response).final_job_id = none →
      (bulk_operation offcoreUrl create_response parsed_job_id upload_responses
        authError close_response abort_response).job_created = true →
      (bulk_operation offcoreUrl create_response parsed_job_id upload_responses
          authError close_response abort_response).transitions =
          [JobTransition.uploadComplete] ∧
      (bulk_operation offcoreUrl create_response parsed_job_id upload_responses
          authError close_response abort_response).error = none) ∧
    (create_response.statusCode = 201 → authError = none →
      ((∃ r ∈ upload_responses, r.statusCode ≠ 202) →
        (bulk_operation offcoreUrl create_response parsed_job_id upload_responses
            authError close_response abort_response).transitions =
            [JobTransition.aborted] ∧
        (bulk_operation offcoreUrl create_response parsed_job_id upload_responses
            authError close_response abort_response).error.isSome = true ∧
        (bulk_operation offcoreUrl create_response parsed_job_id upload_responses
            authError close_response abort_response).final_job_id =
            some parsed_job_id) ∧
      ((∀ r ∈ upload_responses, r.statusCode = 202) →
        bulk_operation offcoreUrl create_response parsed_job_id upload_responses
            authError close_response abort_response =
          ⟨none, upload_responses.length, [JobTransition.uploadComplete], true,
            none⟩)) := by
  by_cases hcr : create_response.statusCode = 201
  · rw [bulk_operation_cases offcoreUrl create_response parsed_job_id upload_responses
      authError close_response abort_response hcr]
    rcases hul : bulk_operation.uploadLoop
        ("https://" ++ offcoreUrl ++ "/api/v1/ingest/jobs/" ++ parsed_job_id ++
          "/batches") upload_responses with ⟨oe, n⟩
    refine ⟨?_, ?_, ?_⟩
    · cases oe <;> cases authError <;> simp
    · cases oe <;> cases authError <;> simp
    · intro _ hauth
      subst hauth
      constructor
      · intro hex
        have hng : ¬ ∀ r ∈ upload_responses, r.statusCode = 202 := by
          rcases hex with ⟨r, hr, hne⟩
          exact fun hall => hne (hall r hr)
        have hsome : oe.isSome = true := by
          rcases oe with _ | e
          · exact absurd ((bulk_operation.uploadLoop_eq_none_iff _ _).mp
              (by rw [hul])) hng
          · rfl
        rcases oe with _ | e
        · simp at hsome
        · simp
      · intro hall
        have := bulk_operation.uploadLoop_all_ok
          ("https://" ++ offcoreUrl ++ "/api/v1/ingest/jobs/" ++ parsed_job_id ++
            "/batches") upload_responses hall
        rw [hul] at this
        rcases Prod.mk.injEq .. ▸ this with ⟨hoe, hn⟩
        subst hoe
        subst hn
        simp
  · have hb : bulk_operation offcoreUrl create_response parsed_job_id upload_responses
        authError close_response abort_response =
        ⟨some ⟨"Create Job", "https://" ++ offcoreUrl ++ "/api/v1/ingest/jobs",
          create_response.statusCode, create_response.text⟩, 0, [], false, none⟩ := by
      simp [bulk_operation, create_job, hcr]
    rw [hb]
    refine ⟨by simp, by simp, ?_⟩
    intro h201
    exact absurd h201 hcr

/-- C9 witness: with a job created successfully, a first part upload
accepted and a second rejected with 500, the job is aborted, the error
is re-raised and the job id is not cleared; with both uploads accepted
the job is closed as `UploadComplete` and the id cleared. -/
theorem bulk_operation_job_bracketing_witness :
    ((bulk_operation "inst.example" ⟨201, "created"⟩ "job-1"
        [⟨202, "a"⟩, ⟨500, "boom"⟩] none ⟨200, "closed"⟩ ⟨200, "aborted"⟩).transitions =
      [JobTransition.aborted] ∧
    (bulk_operation "inst.example" ⟨201, "created"⟩ "job-1"
        [⟨202, "a"⟩, ⟨500, "boom"⟩] none ⟨200, "closed"⟩
        ⟨200, "aborted"⟩).error.isSome = true ∧
    (bulk_operation "inst.example" ⟨201, "created"⟩ "job-1"
        [⟨202, "a"⟩, ⟨500, "boom"⟩] none ⟨200, "closed"⟩
        ⟨200, "aborted"⟩).final_job_id = some "job-1") ∧
    bulk_operation "inst.example" ⟨201, "created"⟩ "job-1"
        [⟨202, "a"⟩, ⟨202, "b"⟩] none ⟨200, "closed"⟩ ⟨200, "aborted"⟩ =
      ⟨none, 2, [JobTransition.uploadComplete], true, none⟩ :=
  ⟨((bulk_operation_job_bracketing "inst.example" ⟨201, "created"⟩ "job-1"
        [⟨202, "a"⟩, ⟨500, "boom"⟩] none ⟨200, "closed"⟩ ⟨200, "aborted"⟩).2.2
      rfl rfl).1 ⟨⟨500, "boom"⟩, by simp, by decide⟩,
    ((bulk_operation_job_bracketing "inst.example" ⟨201, "created"⟩ "job-1"
        [⟨202, "a"⟩, ⟨202, "b"⟩] none ⟨200, "closed"⟩ ⟨200, "aborted"⟩).2.2
      rfl rfl).2 (by decide)⟩

end SFDC
